import Mathlib

/-!
# Peer Calls: server-to-server transport aggregate

A shallow embedding of

* `server/servertransport/transport.go` (`Transport`, `Params`, `New`, `ClientID`, `Done`,
  `Close`, `Type`),
* `server/pubsub/pub_track.go` (`PubTrack`, `newPubTrack`),

together with the lifecycle and identity properties of the aggregate.

Go pointers to collaborators are modelled by value. A Go `error` is `Option Error`
(`none` is `nil`). A Go panic is the `Except.error` branch.
-/

namespace PeerCalls

/-! ## identifiers -/

namespace identifiers

/-- The string type `identifiers.ClientID`. -/
abbrev ClientID := String

/-- The string type `identifiers.UserID`. -/
abbrev UserID := String

/-- The string type `identifiers.TrackID`. -/
abbrev TrackID := String

/-- The string type `identifiers.PeerID`. -/
abbrev PeerID := String

end identifiers

/-! ## Go runtime pieces used by `Transport` -/

/-- Go `error` values that occur around `Transport.Close`. -/
inductive Error where
  /-- an error produced by a collaborator (for instance by closing a connection) -/
  | msg (text : String)
  /-- the `*errors.Err` built by `errors.Trace`: the previous error, annotated with a location -/
  | traced (previous : Error)
  /-- a non-empty `multierr.MultiErr`, holding the collected errors in insertion order -/
  | multi (errs : List Error)
  deriving Repr

/-- Run-time panics. -/
inductive Panic where
  /-- the panic `close of closed channel` -/
  | closeOfClosedChannel
  deriving DecidableEq, Repr

/-- A `chan struct{}` on which nothing is ever sent: all that matters is whether it is closed. -/
structure Chan where
  closed : Bool
  deriving DecidableEq, Repr

/-- The builtin `make(chan struct{})`. -/
def Chan.make : Chan := { closed := false }

/-- The builtin `close(ch)`: panics when the channel is already closed. -/
def Chan.close (ch : Chan) : Except Panic Chan :=
  if ch.closed then .error .closeOfClosedChannel else .ok { closed := true }

/-- The single-fire guard `sync.Once`. -/
structure Once where
  done : Bool
  deriving DecidableEq, Repr

/-- The method `(*sync.Once).Do(f)`: runs `f` on the state it captures unless an earlier `Do`
already ran; afterwards the guard is set. -/
def Once.Do {σ : Type} (o : Once) (f : σ → Except Panic σ) (s : σ) : Except Panic (Once × σ) :=
  if o.done then .ok (o, s)
  else
    match f s with
    | .error p => .error p
    | .ok s' => .ok ({ done := true }, s')

namespace errors

/-- The function `errors.Trace` of `github.com/juju/errors`: `nil` for `nil`, otherwise a new
error that wraps the given one and records the location of the call. -/
def Trace (other : Option Error) : Option Error :=
  match other with
  | none => none
  | some e => some (.traced e)

end errors

namespace multierr

/-- Modelled from the spec: package `server/multierr` is not among the sources. Per the
specification, close-time errors "are collected and returned together as one combined error",
which is "empty/nil if all three closed cleanly": the collector keeps every non-nil error it is
given, in order. -/
structure MultiErr where
  errs : List Error
  deriving Repr

/-- Modelled from the spec: `multierr.New()` of the absent package `server/multierr`, an empty
collector. -/
def New : MultiErr := { errs := [] }

/-- Modelled from the spec: `(*MultiErr).Add` of the absent package `server/multierr`; a `nil`
error is no failure and is not collected, any other error is appended. -/
def MultiErr.Add (m : MultiErr) (err : Option Error) : MultiErr :=
  match err with
  | none => m
  | some e => { errs := m.errs ++ [e] }

/-- Modelled from the spec: `(*MultiErr).Err` of the absent package `server/multierr`; `nil`
when nothing was collected, otherwise the combined error. -/
def MultiErr.Err (m : MultiErr) : Option Error :=
  match m.errs with
  | [] => none
  | e :: es => some (.multi (e :: es))

end multierr

/-! ## Collaborators of the aggregate -/

namespace logger

/-- Modelled from the spec: package `server/logger` is not among the sources; the logging sink is
"required for diagnostics; not behavior-affecting". A logger is its namespace path and its
context entries. -/
structure Logger where
  namespaces : List String
  ctx : List (String × String)
  deriving DecidableEq, Repr

/-- Modelled from the spec: `Logger.WithNamespaceAppended` of the absent package. -/
def Logger.WithNamespaceAppended (l : Logger) (ns : String) : Logger :=
  { l with namespaces := l.namespaces ++ [ns] }

/-- Modelled from the spec: `Logger.WithCtx` of the absent package. -/
def Logger.WithCtx (l : Logger) (ctx : List (String × String)) : Logger :=
  { l with ctx := l.ctx ++ ctx }

end logger

/-- An `io.ReadWriteCloser` handle. -/
structure Conn where
  id : Nat
  deriving DecidableEq, Repr

namespace interceptor

/-- Values of the interface `interceptor.Interceptor` of `github.com/pion/interceptor`. -/
inductive Interceptor where
  /-- the value `&interceptor.NoOp{}` -/
  | NoOp
  /-- any other implementation -/
  | custom (id : Nat)
  deriving DecidableEq, Repr

end interceptor

namespace codecs

/-- Modelled from the spec: package `server/codecs` is not among the sources; a registry is either
the "standard built-in registry" or one supplied by the caller. -/
inductive Registry where
  | standard
  | custom (id : Nat)
  deriving DecidableEq, Repr

/-- Modelled from the spec: `codecs.NewRegistryDefault()` of the absent package. -/
def NewRegistryDefault : Registry := .standard

end codecs

namespace transport

/-- Modelled from the spec: `transport.Type` is declared outside the sources; it tells a
server-to-server transport from a client-facing one. (`Type` is a reserved word here.) -/
inductive TransportType where
  | TypeServer
  | TypeWebRTC
  deriving DecidableEq, Repr

/-- Modelled from the spec: the interface `transport.Track` is declared outside the sources; a
track handle reports its own unique identifier and its owning user. -/
structure Track where
  UniqueID : identifiers.TrackID
  UserID : identifiers.UserID
  deriving DecidableEq, Repr

end transport

/-! ## `server/pubsub/pub_track.go` -/

namespace pubsub

/-- The record `PubTrack`. -/
structure PubTrack where
  ClientID : identifiers.ClientID
  UserID : identifiers.UserID
  TrackID : identifiers.TrackID
  deriving DecidableEq, Repr

/-- The function `newPubTrack`. -/
def newPubTrack (pubClientID : identifiers.ClientID) (track : transport.Track) : PubTrack :=
  { ClientID := pubClientID
    TrackID := track.UniqueID
    UserID := track.UserID }

end pubsub

/-! ## `server/servertransport/transport.go` -/

namespace servertransport

open interceptor (Interceptor)
open logger (Logger)

/-- What the environment can observe of the aggregate at teardown: a call of one of the three
sub-channel `Close` methods, or the closing of the completion channel. -/
inductive Effect where
  | DataTransportClose
  | MediaStreamClose
  | MetadataTransportClose
  | closeChan
  deriving DecidableEq, Repr

/-- A buffer factory handle (`New` always passes `nil`). -/
structure BufferFactory where
  id : Nat
  deriving DecidableEq, Repr

/-- The record `MediaStreamParams`, as `New` fills it. -/
structure MediaStreamParams where
  Log : Logger
  Conn : Conn
  Interceptor : Option Interceptor
  BufferFactory : Option BufferFactory
  deriving DecidableEq, Repr

/-- Modelled from the spec: `MediaStream` lives in a file that is not among the sources; the
media channel is represented by the parameters it was constructed with. -/
structure MediaStream where
  params : MediaStreamParams
  deriving DecidableEq, Repr

/-- Modelled from the spec: `NewMediaStream` (not among the sources) constructs the media channel
from its parameters. -/
def NewMediaStream (params : MediaStreamParams) : MediaStream := { params := params }

/-- Modelled from the spec: `MediaStream.Close` (not among the sources) is "independently
closable" and may fail; the call is recorded, its result is the one the environment supplies. -/
def MediaStream.Close (_s : MediaStream) (result : Option Error) (trace : List Effect) :
    Option Error × List Effect :=
  (result, trace ++ [Effect.MediaStreamClose])

/-- The record `MetadataTransportParams`, as `New` fills it. -/
structure MetadataTransportParams where
  Log : Logger
  Conn : Conn
  MediaStream : MediaStream
  ClientID : identifiers.ClientID
  Interceptor : Option Interceptor
  CodecRegistry : Option codecs.Registry
  deriving DecidableEq, Repr

/-- Modelled from the spec: `MetadataTransport` lives in a file that is not among the sources; the
metadata channel is represented by the parameters it was constructed with. -/
structure MetadataTransport where
  params : MetadataTransportParams
  deriving DecidableEq, Repr

/-- Modelled from the spec: `NewMetadataTransport` (not among the sources) constructs the metadata
channel from its parameters. -/
def NewMetadataTransport (params : MetadataTransportParams) : MetadataTransport :=
  { params := params }

/-- Modelled from the spec: `MetadataTransport.Close` (not among the sources) is "independently
closable" and may fail; the call is recorded, its result is the one the environment supplies. -/
def MetadataTransport.Close (_m : MetadataTransport) (result : Option Error)
    (trace : List Effect) : Option Error × List Effect :=
  (result, trace ++ [Effect.MetadataTransportClose])

/-- The record `DataTransportParams`, as `New` fills it. -/
structure DataTransportParams where
  Log : Logger
  Conn : Conn
  deriving DecidableEq, Repr

/-- Modelled from the spec: `DataTransport` lives in a file that is not among the sources; the
data channel is represented by the parameters it was constructed with. -/
structure DataTransport where
  params : DataTransportParams
  deriving DecidableEq, Repr

/-- Modelled from the spec: `NewDataTransport` (not among the sources) constructs the data channel
from its parameters. -/
def NewDataTransport (params : DataTransportParams) : DataTransport := { params := params }

/-- Modelled from the spec: `DataTransport.Close` (not among the sources) is "independently
closable" and may fail; the call is recorded, its result is the one the environment supplies. -/
def DataTransport.Close (_d : DataTransport) (result : Option Error) (trace : List Effect) :
    Option Error × List Effect :=
  (result, trace ++ [Effect.DataTransportClose])

/-- The aggregate `Transport`. -/
structure Transport where
  MetadataTransport : MetadataTransport
  MediaStream : MediaStream
  DataTransport : DataTransport
  clientID : identifiers.ClientID
  closeChan : Chan
  closeOnce : Once
  deriving DecidableEq, Repr

/-- The record `Params`. `Interceptor` and `CodecRegistry` may be `nil`. -/
structure Params where
  Log : Logger
  MediaConn : Conn
  DataConn : Conn
  MetadataConn : Conn
  Interceptor : Option Interceptor
  CodecRegistry : Option codecs.Registry
  deriving DecidableEq, Repr

/-- The constructor `New`. The constant `identifiers.ServerNodePrefix` is declared outside the
sources and the result of `uuid.New()` is chosen by the environment: both are arguments. -/
def New (ServerNodePrefix : String) (uuidNew : String) (params : Params) : Transport :=
  let params : Params :=
    if params.Interceptor = none then { params with Interceptor := some Interceptor.NoOp }
    else params
  let params : Params :=
    if params.CodecRegistry = none then
      { params with CodecRegistry := some codecs.NewRegistryDefault }
    else params
  let clientID : identifiers.ClientID := ServerNodePrefix ++ uuidNew
  let log := (params.Log.WithNamespaceAppended "server_transport").WithCtx
    [("client_id", clientID)]
  let mediaStream := NewMediaStream
    { Log := log
      Conn := params.MediaConn
      Interceptor := params.Interceptor
      BufferFactory := none }
  let metadataTransportParams : MetadataTransportParams :=
    { Log := log
      Conn := params.MetadataConn
      MediaStream := mediaStream
      ClientID := clientID
      Interceptor := params.Interceptor
      CodecRegistry := params.CodecRegistry }
  let dataTransportParams : DataTransportParams :=
    { Log := log
      Conn := params.DataConn }
  { MetadataTransport := NewMetadataTransport metadataTransportParams
    MediaStream := mediaStream
    DataTransport := NewDataTransport dataTransportParams
    clientID := clientID
    closeChan := Chan.make
    closeOnce := { done := false } }

/-- The method `Transport.ClientID`. -/
def Transport.ClientID (t : Transport) : identifiers.ClientID := t.clientID

/-- The method `Transport.Done`: the completion channel, for reading. -/
def Transport.Done (t : Transport) : Chan := t.closeChan

/-- The results of the three sub-channel closes during one call of `Transport.Close`. -/
structure CloseResults where
  data : Option Error
  media : Option Error
  metadata : Option Error
  deriving Repr

/-- The body of the function handed to `closeOnce.Do` in `Transport.Close`:
`close(t.closeChan)`, acting on the channel and on the trace of effects. -/
def closeCloseChan (s : Chan × List Effect) : Except Panic (Chan × List Effect) :=
  match s.1.close with
  | .error p => .error p
  | .ok ch => .ok (ch, s.2 ++ [Effect.closeChan])

/-- The method `Transport.Close`. It returns the error, the aggregate after the call and the trace
extended by the effects of the call. -/
def Transport.Close (t : Transport) (env : CloseResults) (trace : List Effect) :
    Except Panic (Option Error × Transport × List Effect) :=
  let errs := multierr.New
  let r1 := t.DataTransport.Close env.data trace
  let errs := errs.Add (errors.Trace r1.1)
  let r2 := t.MediaStream.Close env.media r1.2
  let errs := errs.Add (errors.Trace r2.1)
  let r3 := t.MetadataTransport.Close env.metadata r2.2
  let errs := errs.Add (errors.Trace r3.1)
  match t.closeOnce.Do closeCloseChan (t.closeChan, r3.2) with
  | .error p => .error p
  | .ok (closeOnce, closeChan, trace) =>
    .ok (errors.Trace errs.Err, { t with closeOnce := closeOnce, closeChan := closeChan }, trace)

/-- The method `Transport.Type`. -/
def Transport.Type (_t : Transport) : transport.TransportType := .TypeServer

/-! ### Sequences of calls on one aggregate -/

/-- An aggregate together with the trace of effects performed so far. -/
structure State where
  t : Transport
  trace : List Effect
  deriving DecidableEq, Repr

/-- A call of one of the aggregate's own operations; a `Close` call comes with the results its
three sub-channel closes will return. -/
inductive Call where
  | ClientID
  | Type
  | Done
  | Close (env : CloseResults)
  deriving Repr

/-- Whether a call is a call of `Close`. -/
def Call.isClose : Call → Bool
  | .Close _ => true
  | _ => false

/-- The state right after `New`. -/
def State.init (ServerNodePrefix uuidNew : String) (params : Params) : State :=
  { t := New ServerNodePrefix uuidNew params, trace := [] }

/-- One call on the aggregate. The results of the getters are dropped. -/
def State.call (s : State) : Call → Except Panic State
  | .ClientID => let _ := s.t.ClientID; .ok s
  | .Type => let _ := s.t.Type; .ok s
  | .Done => let _ := s.t.Done; .ok s
  | .Close env =>
    match s.t.Close env s.trace with
    | .error p => .error p
    | .ok (_, t, trace) => .ok { t := t, trace := trace }

/-- A sequence of calls on the aggregate, stopping at the first panic. -/
def State.run (s : State) : List Call → Except Panic State
  | [] => .ok s
  | c :: cs =>
    match s.call c with
    | .error p => .error p
    | .ok s' => s'.run cs

/-- The effects a sequence of calls is expected to perform, given whether the close guard is
already set: every `Close` calls the three sub-channel closes in order, and the first one also
closes the completion channel. -/
def expectedEffects (done : Bool) : List Call → List Effect
  | [] => []
  | c :: cs =>
    if c.isClose then
      [Effect.DataTransportClose, Effect.MediaStreamClose, Effect.MetadataTransportClose]
        ++ (if done then [] else [Effect.closeChan]) ++ expectedEffects true cs
    else expectedEffects done cs

/-- Following the spec's words: absent interceptor, no-op interceptor; absent codec registry,
standard default registry; a supplied collaborator stays. -/
def Params.withDefaults (p : Params) : Params :=
  { p with
    Interceptor := some (p.Interceptor.getD Interceptor.NoOp)
    CodecRegistry := some (p.CodecRegistry.getD codecs.NewRegistryDefault) }

/-- Parameters used in the concrete examples: no interceptor and no codec registry supplied. -/
def exampleParams : Params :=
  { Log := { namespaces := [], ctx := [] }
    MediaConn := { id := 1 }
    DataConn := { id := 2 }
    MetadataConn := { id := 0 }
    Interceptor := none
    CodecRegistry := none }

/-- Close results used in the concrete examples: all three closes succeed. -/
def allClosedCleanly : CloseResults := { data := none, media := none, metadata := none }

/-- Close results used in the concrete examples: the data close succeeds, the media close and
the metadata close fail. -/
def mediaAndMetadataFail : CloseResults :=
  { data := none, media := some (.msg "media: use of closed connection"),
    metadata := some (.msg "metadata: use of closed connection") }

/-- The state used in the concrete examples: the aggregate built from `exampleParams` after one
`Close`, with the four effects of that call. -/
def closedOnce : State :=
  { t := { New "node:" "u1" exampleParams with
            closeOnce := { done := true }, closeChan := { closed := true } }
    trace := [Effect.DataTransportClose, Effect.MediaStreamClose,
      Effect.MetadataTransportClose, Effect.closeChan] }

end servertransport

/-! ## Stream identifiers -/

namespace streams

/-- The role of a stream on a connection set. -/
inductive Role where
  | metadata
  | media
  | data
  deriving DecidableEq, Repr

/-- Modelled from the spec: no allocator of stream identifiers is among the sources (only the
comment on `Transport` describes the numbering). The metadata stream "on ID 0". -/
def metadataStreamID : Nat := 0

/-- The pair of stream identifiers of one room. -/
structure RoomStreams where
  media : Nat
  data : Nat
  deriving DecidableEq, Repr

/-- Modelled from the spec: no allocator of stream identifiers is among the sources. Per the
specification a room counter is mapped to stream-identifier pairs: media streams "use odd
numbered stream IDs, starting from 1", data-channel streams "even stream IDs, starting from 2",
and the identifiers of one room are "N and N+1". The argument is the number of the room on the
connection set, counted from 0. -/
def roomStreams (room : Nat) : RoomStreams :=
  { media := 2 * room + 1, data := 2 * room + 2 }

/-- Modelled from the spec: demultiplexing "purely from its stream identifier and parity":
0 is metadata, odd is media, any other even identifier is a data channel. -/
def roleOf (streamID : Nat) : Role :=
  if streamID = 0 then .metadata
  else if streamID % 2 = 1 then .media
  else .data

end streams

/-! ## Lemmas -/

namespace servertransport

/-- The error `Transport.Close` returns, as a function of the three results. -/
theorem collected_err (env : CloseResults) :
    errors.Trace ((((multierr.New.Add (errors.Trace env.data)).Add
        (errors.Trace env.media)).Add (errors.Trace env.metadata)).Err)
      = match [env.data, env.media, env.metadata].filterMap errors.Trace with
        | [] => none
        | e :: es => some (.traced (.multi (e :: es))) := by
  obtain ⟨d, m, md⟩ := env
  cases d <;> cases m <;> cases md <;> rfl

/-- On an aggregate whose close guard agrees with its completion channel, `Close` does not
panic; its result, final state and effects are these. -/
theorem Close_of_guard (t : Transport) (env : CloseResults) (trace : List Effect)
    (h : t.closeOnce.done = t.closeChan.closed) :
    t.Close env trace = .ok
      (errors.Trace ((((multierr.New.Add (errors.Trace env.data)).Add
          (errors.Trace env.media)).Add (errors.Trace env.metadata)).Err),
       { t with closeOnce := { done := true }, closeChan := { closed := true } },
       trace ++ expectedEffects t.closeOnce.done [Call.Close env]) := by
  obtain ⟨mt, ms, dt, cid, ⟨closed⟩, ⟨done⟩⟩ := t
  simp only at h
  subst h
  cases done <;>
    simp [Transport.Close, Once.Do, closeCloseChan, Chan.close, DataTransport.Close,
      MediaStream.Close, MetadataTransport.Close, expectedEffects, Call.isClose]

/-- Any sequence of calls, started where the close guard agrees with the completion channel,
runs without panic; only the guard and the channel change, and the effects are the expected
ones. -/
theorem run_of_guard (calls : List Call) :
    ∀ s : State, s.t.closeOnce.done = s.t.closeChan.closed →
      s.run calls = .ok
        { t := { s.t with
                  closeOnce := { done := s.t.closeOnce.done || calls.any Call.isClose }
                  closeChan := { closed := s.t.closeChan.closed || calls.any Call.isClose } }
          trace := s.trace ++ expectedEffects s.t.closeOnce.done calls } := by
  induction calls with
  | nil => intro s _; simp [State.run, expectedEffects]
  | cons c cs ih =>
    intro s h
    cases c
    case Close env =>
      have hc := Close_of_guard s.t env s.trace h
      simp only [State.run, State.call, hc]
      rw [ih _ rfl]
      simp [expectedEffects, Call.isClose, List.append_assoc]
    all_goals
      simp only [State.run, State.call]
      rw [ih s h]
      simp [expectedEffects, Call.isClose]

/-- The run of any sequence of calls on a freshly constructed aggregate. -/
theorem run_init (ServerNodePrefix uuidNew : String) (params : Params) (calls : List Call) :
    (State.init ServerNodePrefix uuidNew params).run calls = .ok
      { t := { New ServerNodePrefix uuidNew params with
                closeOnce := { done := calls.any Call.isClose }
                closeChan := { closed := calls.any Call.isClose } }
        trace := expectedEffects false calls } := by
  have h := run_of_guard calls (State.init ServerNodePrefix uuidNew params) rfl
  rw [h]
  simp [State.init, New, Chan.make]

/-- Calls other than `Close` perform no effect. -/
theorem expectedEffects_no_close (done : Bool) (calls : List Call)
    (h : ∀ c ∈ calls, c.isClose = false) : expectedEffects done calls = [] := by
  induction calls with
  | nil => rfl
  | cons c cs ih =>
    have hc : c.isClose = false := h c (List.mem_cons_self _ _)
    simp only [expectedEffects, hc]
    exact ih (fun x hx => h x (List.mem_cons_of_mem _ hx))

/-- Once the guard is set, no call closes the completion channel. -/
theorem expectedEffects_done_count (calls : List Call) :
    (expectedEffects true calls).count Effect.closeChan = 0 := by
  induction calls with
  | nil => rfl
  | cons c cs ih =>
    cases hc : c.isClose <;> simp [expectedEffects, hc, ih]

/-- From a state with the guard unset, the effects of a sequence holding a `Close` start with
the four effects of its first `Close`; later calls run with the guard set. -/
theorem expectedEffects_first_close (calls : List Call) (h : calls.any Call.isClose = true) :
    ∃ rest : List Call, expectedEffects false calls =
      [Effect.DataTransportClose, Effect.MediaStreamClose, Effect.MetadataTransportClose,
        Effect.closeChan] ++ expectedEffects true rest := by
  induction calls with
  | nil => simp at h
  | cons c cs ih =>
    cases hc : c.isClose
    · simp only [List.any_cons, hc, Bool.false_or] at h
      obtain ⟨rest, hrest⟩ := ih h
      exact ⟨rest, by simp [expectedEffects, hc, hrest]⟩
    · exact ⟨cs, by simp [expectedEffects, hc]⟩

/-- A sequence with at least one `Close` call holds a `Close` call. -/
theorem any_isClose_of_countP (calls : List Call) (h : 1 ≤ calls.countP Call.isClose) :
    calls.any Call.isClose = true := by
  have hpos : 0 < calls.countP Call.isClose := h
  obtain ⟨c, hc, hp⟩ := List.countP_pos_iff.mp hpos
  exact List.any_eq_true.mpr ⟨c, hc, hp⟩

/-- A sequence none of whose calls is a `Close` holds no `Close` call. -/
theorem any_isClose_false (calls : List Call) (h : ∀ c ∈ calls, c.isClose = false) :
    calls.any Call.isClose = false := by
  cases hany : calls.any Call.isClose
  · rfl
  · obtain ⟨c, hc, hp⟩ := List.any_eq_true.mp hany
    rw [h c hc] at hp
    exact absurd hp (by decide)

/-- String concatenation cancels on the left. -/
theorem append_right_cancel_string (a b c : String) (h : a ++ b = a ++ c) : b = c := by
  have hd : (a ++ b).data = (a ++ c).data := congrArg String.data h
  rw [String.data_append, String.data_append] at hd
  exact String.ext (List.append_cancel_left hd)

/-! ## The lifecycle of the aggregate -/

/-- C1: on an aggregate built by `New` on which only `ClientID`, `Type` and `Done` have been
called so far, and for every combination of results of the three sub-channel closes, `Close`
returns (it does not panic) and performs exactly the effects: close of the data channel, close of
the media channel, close of the metadata channel, closing of the completion channel, in this
order; nothing was performed before, and the completion signal is fired afterwards. -/
theorem Close_first_call_effects (ServerNodePrefix uuidNew : String) (params : Params)
    (before : List Call) (env : CloseResults)
    (hfresh : ∀ c ∈ before, c.isClose = false) :
    ∃ (s : State) (err : Option Error) (t' : Transport),
      (State.init ServerNodePrefix uuidNew params).run before = .ok s ∧
      s.trace = [] ∧
      s.t.Close env s.trace = .ok (err, t',
        [Effect.DataTransportClose, Effect.MediaStreamClose, Effect.MetadataTransportClose,
          Effect.closeChan]) ∧
      t'.Done.closed = true := by
  have hrun := run_init ServerNodePrefix uuidNew params before
  rw [any_isClose_false before hfresh, expectedEffects_no_close false before hfresh] at hrun
  exact ⟨_, _, _, hrun, rfl, Close_of_guard _ env [] rfl, rfl⟩

/-- An instance of C1 on the aggregate built from `exampleParams`. -/
theorem Close_first_call_effects_witness :
    (∀ c ∈ [Call.ClientID, Call.Type, Call.Done], c.isClose = false) ∧
    ∃ (s : State) (err : Option Error) (t' : Transport),
      (State.init "node:" "u1" exampleParams).run [Call.ClientID, Call.Type, Call.Done]
        = .ok s ∧
      s.trace = [] ∧
      s.t.Close mediaAndMetadataFail s.trace = .ok (err, t',
        [Effect.DataTransportClose, Effect.MediaStreamClose, Effect.MetadataTransportClose,
          Effect.closeChan]) ∧
      t'.Done.closed = true :=
  ⟨by decide,
   Close_first_call_effects "node:" "u1" exampleParams [Call.ClientID, Call.Type, Call.Done]
     mediaAndMetadataFail (by decide)⟩

/-- C2: after any sequence of calls on an aggregate built by `New`, and for every combination of
results of the data, media and metadata closes, `Close` returns; the returned error is `nil`
exactly when all three closes returned `nil`; otherwise it is the combined error holding every
returned error (each one traced), in the order data, media, metadata, and nothing else. When the
data close succeeds and the media and metadata closes fail, it holds both failures. -/
theorem Close_returns_every_error (ServerNodePrefix uuidNew : String) (params : Params)
    (calls : List Call) (env : CloseResults) :
    ∃ (s : State) (err : Option Error) (t' : Transport) (trace' : List Effect),
      (State.init ServerNodePrefix uuidNew params).run calls = .ok s ∧
      s.t.Close env s.trace = .ok (err, t', trace') ∧
      (err = none ↔ env.data = none ∧ env.media = none ∧ env.metadata = none) ∧
      (err = none ∨ err = some (.traced (.multi
        ([env.data, env.media, env.metadata].filterMap errors.Trace)))) ∧
      (∀ e : Error, env.data = some e ∨ env.media = some e ∨ env.metadata = some e →
        ∃ errs : List Error, err = some (.traced (.multi errs)) ∧ Error.traced e ∈ errs) ∧
      (∀ e₁ e₂ : Error, env.data = none → env.media = some e₁ → env.metadata = some e₂ →
        err = some (.traced (.multi [.traced e₁, .traced e₂]))) := by
  refine ⟨_, _, _, _, run_init ServerNodePrefix uuidNew params calls,
    Close_of_guard _ env _ rfl, ?_, ?_, ?_, ?_⟩
  all_goals rw [collected_err env]
  all_goals obtain ⟨d, m, md⟩ := env
  · cases d <;> cases m <;> cases md <;> simp [errors.Trace]
  · cases d <;> cases m <;> cases md <;> simp [errors.Trace]
  · intro e he
    cases d <;> cases m <;> cases md <;> simp [errors.Trace] at he ⊢ <;> aesop
  · intro e₁ e₂ hd hm hmd
    simp only at hd hm hmd
    subst hd hm hmd
    simp [errors.Trace]

/-- C3, as stated, fails: the aggregate built from `exampleParams` is in state `closedOnce`
after a first `Close` whose three sub-channel closes succeed; a second `Close` there calls the
data, media and metadata closes again and returns the combined error of the two failures they
report, so it is not a call that invokes no sub-channel close and returns no error. -/
theorem Close_second_call_closes_channels_again :
    (State.init "node:" "u1" exampleParams).run [Call.Close allClosedCleanly] = .ok closedOnce ∧
    closedOnce.t.Close mediaAndMetadataFail closedOnce.trace
      = .ok
        (some (.traced (.multi [.traced (.msg "media: use of closed connection"),
            .traced (.msg "metadata: use of closed connection")])),
         closedOnce.t,
         closedOnce.trace ++ [Effect.DataTransportClose, Effect.MediaStreamClose,
           Effect.MetadataTransportClose]) ∧
    ¬ (∃ t' : Transport, closedOnce.t.Close mediaAndMetadataFail closedOnce.trace
        = .ok (none, t', closedOnce.trace)) := by
  refine ⟨rfl, rfl, ?_⟩
  rintro ⟨t', h⟩
  have h2 : closedOnce.t.Close mediaAndMetadataFail closedOnce.trace
      = .ok
        (some (.traced (.multi [.traced (.msg "media: use of closed connection"),
            .traced (.msg "metadata: use of closed connection")])),
         closedOnce.t,
         closedOnce.trace ++ [Effect.DataTransportClose, Effect.MediaStreamClose,
           Effect.MetadataTransportClose]) := rfl
  rw [h2] at h
  simp at h

/-- C3, amended: on an aggregate built by `New` on which `Close` has been called at least once,
every further `Close` returns (it does not panic), calls the data, media and metadata closes
again, in this order, and performs nothing else: the completion channel is not closed again and
the aggregate is left unchanged with its signal fired. The returned error is the combined error
of what the three closes of this call returned: `nil` exactly when all three returned `nil`,
otherwise the traced combined error holding every returned error (each one traced), in the
order data, media, metadata, and nothing else. -/
theorem Close_later_call_effects (ServerNodePrefix uuidNew : String) (params : Params)
    (before : List Call) (env : CloseResults)
    (hclosed : ∃ c ∈ before, c.isClose = true) :
    ∃ (s : State) (err : Option Error),
      (State.init ServerNodePrefix uuidNew params).run before = .ok s ∧
      s.t.Close env s.trace = .ok (err, s.t,
        s.trace ++ [Effect.DataTransportClose, Effect.MediaStreamClose,
          Effect.MetadataTransportClose]) ∧
      s.t.Done.closed = true ∧
      (err = none ↔ env.data = none ∧ env.media = none ∧ env.metadata = none) ∧
      err = (match [env.data, env.media, env.metadata].filterMap errors.Trace with
        | [] => none
        | e :: es => some (.traced (.multi (e :: es)))) ∧
      (∀ e : Error, env.data = some e ∨ env.media = some e ∨ env.metadata = some e →
        ∃ errs : List Error, err = some (.traced (.multi errs)) ∧ Error.traced e ∈ errs) := by
  obtain ⟨c, hc, hp⟩ := hclosed
  have hany : before.any Call.isClose = true := List.any_eq_true.mpr ⟨c, hc, hp⟩
  have hrun := run_init ServerNodePrefix uuidNew params before
  rw [hany] at hrun
  refine ⟨_, _, hrun, Close_of_guard _ env _ rfl, rfl, ?_, ?_, ?_⟩
  · rw [collected_err env]
    obtain ⟨d, m, md⟩ := env
    cases d <;> cases m <;> cases md <;> simp [errors.Trace]
  · exact collected_err env
  · rw [collected_err env]
    obtain ⟨d, m, md⟩ := env
    intro e he
    cases d <;> cases m <;> cases md <;> simp [errors.Trace] at he ⊢ <;> aesop

/-- An instance of C3, amended, on the aggregate built from `exampleParams`: after a clean first
`Close` and a `Done`, a `Close` whose media and metadata closes fail. -/
theorem Close_later_call_effects_witness :
    (∃ c ∈ [Call.Close allClosedCleanly, Call.Done], c.isClose = true) ∧
    ∃ (s : State) (err : Option Error),
      (State.init "node:" "u1" exampleParams).run [Call.Close allClosedCleanly, Call.Done]
        = .ok s ∧
      s.t.Close mediaAndMetadataFail s.trace = .ok (err, s.t,
        s.trace ++ [Effect.DataTransportClose, Effect.MediaStreamClose,
          Effect.MetadataTransportClose]) ∧
      s.t.Done.closed = true ∧
      (err = none ↔ mediaAndMetadataFail.data = none ∧ mediaAndMetadataFail.media = none ∧
        mediaAndMetadataFail.metadata = none) ∧
      err = some (.traced (.multi [.traced (.msg "media: use of closed connection"),
        .traced (.msg "metadata: use of closed connection")])) ∧
      (∀ e : Error, mediaAndMetadataFail.data = some e ∨ mediaAndMetadataFail.media = some e ∨
          mediaAndMetadataFail.metadata = some e →
        ∃ errs : List Error, err = some (.traced (.multi errs)) ∧ Error.traced e ∈ errs) :=
  ⟨⟨Call.Close allClosedCleanly, by simp, rfl⟩,
   Close_later_call_effects "node:" "u1" exampleParams [Call.Close allClosedCleanly, Call.Done]
     mediaAndMetadataFail ⟨Call.Close allClosedCleanly, by simp, rfl⟩⟩

/-- C4: for every sequence of calls on an aggregate built by `New` that holds n ≥ 1 calls of
`Close` (with any results of the sub-channel closes), the whole sequence runs without panic and
the completion channel `closeChan` is closed exactly once; this closing is the fourth effect of
the run, performed by the first `Close` right after its three sub-channel closes. -/
theorem closeChan_closed_exactly_once (ServerNodePrefix uuidNew : String) (params : Params)
    (calls : List Call) (hn : 1 ≤ calls.countP Call.isClose) :
    ∃ s : State,
      (State.init ServerNodePrefix uuidNew params).run calls = .ok s ∧
      s.trace.count Effect.closeChan = 1 ∧
      s.trace.take 4 = [Effect.DataTransportClose, Effect.MediaStreamClose,
        Effect.MetadataTransportClose, Effect.closeChan] ∧
      s.t.Done.closed = true := by
  have hany := any_isClose_of_countP calls hn
  obtain ⟨rest, hrest⟩ := expectedEffects_first_close calls hany
  have hrun := run_init ServerNodePrefix uuidNew params calls
  rw [hany, hrest] at hrun
  refine ⟨_, hrun, ?_, ?_, rfl⟩
  · have h0 := expectedEffects_done_count rest
    simp [List.count_cons, h0]
  · simp

/-- An instance of C4 on the aggregate built from `exampleParams`. -/
theorem closeChan_closed_exactly_once_witness :
    1 ≤ [Call.Close mediaAndMetadataFail, Call.Done, Call.Close allClosedCleanly,
      Call.Close allClosedCleanly].countP Call.isClose ∧
    ∃ s : State,
      (State.init "node:" "u1" exampleParams).run
        [Call.Close mediaAndMetadataFail, Call.Done, Call.Close allClosedCleanly,
          Call.Close allClosedCleanly] = .ok s ∧
      s.trace.count Effect.closeChan = 1 ∧
      s.trace.take 4 = [Effect.DataTransportClose, Effect.MediaStreamClose,
        Effect.MetadataTransportClose, Effect.closeChan] ∧
      s.t.Done.closed = true :=
  ⟨by decide,
   closeChan_closed_exactly_once "node:" "u1" exampleParams
     [Call.Close mediaAndMetadataFail, Call.Done, Call.Close allClosedCleanly,
       Call.Close allClosedCleanly] (by decide)⟩

/-- C5: every sequence of `ClientID`, `Type`, `Done` and `Close` calls on an aggregate built by
`New` runs without panic, and in the state it reaches the completion signal returned by `Done`
is fired if and only if the sequence holds a call of `Close` (whatever the sub-channel closes
returned); the signal is unfired right after construction, and a call other than `Close` leaves
the state as it is. -/
theorem Done_fired_iff_Close_called (ServerNodePrefix uuidNew : String) (params : Params)
    (calls : List Call) :
    ∃ s : State,
      (State.init ServerNodePrefix uuidNew params).run calls = .ok s ∧
      (s.t.Done.closed = true ↔ ∃ c ∈ calls, c.isClose = true) ∧
      (New ServerNodePrefix uuidNew params).Done.closed = false ∧
      (∀ (st : State) (c : Call), c.isClose = false → st.call c = .ok st) := by
  refine ⟨_, run_init ServerNodePrefix uuidNew params calls, ?_, rfl, ?_⟩
  · simp [Transport.Done, List.any_eq_true]
  · intro st c hc
    cases c
    case Close env => simp [Call.isClose] at hc
    all_goals rfl

/-- C8: after every sequence of `ClientID`, `Type`, `Done` and `Close` calls on an aggregate
built by `New` (the sequence runs without panic), `ClientID()` returns what it returned right
after construction, namely the server-node prefix followed by the generated suffix; this is the
client identity `New` handed to the metadata channel; and the aggregate differs from the freshly
built one in nothing but the close guard and the completion channel. -/
theorem ClientID_constant (ServerNodePrefix uuidNew : String) (params : Params)
    (calls : List Call) :
    ∃ s : State,
      (State.init ServerNodePrefix uuidNew params).run calls = .ok s ∧
      s.t.ClientID = (New ServerNodePrefix uuidNew params).ClientID ∧
      (New ServerNodePrefix uuidNew params).ClientID = ServerNodePrefix ++ uuidNew ∧
      (New ServerNodePrefix uuidNew params).MetadataTransport.params.ClientID
        = (New ServerNodePrefix uuidNew params).ClientID ∧
      s.t.MetadataTransport.params.ClientID = s.t.ClientID ∧
      s.t = { New ServerNodePrefix uuidNew params with
              closeOnce := s.t.closeOnce, closeChan := s.t.closeChan } :=
  ⟨_, run_init ServerNodePrefix uuidNew params calls, rfl, rfl, rfl, rfl, rfl⟩

/-! ## Construction -/

/-- C7: the client identity of an aggregate built by `New` is the server-node prefix followed by
the generated suffix, so the prefix is a prefix of it; and two aggregates built with different
generated suffixes (whatever their parameters) have different client identities. -/
theorem New_clientID_prefixed_unique (ServerNodePrefix : String) (uuid₁ uuid₂ : String)
    (params₁ params₂ : Params) (hfresh : uuid₁ ≠ uuid₂) :
    (New ServerNodePrefix uuid₁ params₁).ClientID = ServerNodePrefix ++ uuid₁ ∧
    ServerNodePrefix.data <+: (New ServerNodePrefix uuid₁ params₁).ClientID.data ∧
    (New ServerNodePrefix uuid₁ params₁).ClientID
      ≠ (New ServerNodePrefix uuid₂ params₂).ClientID := by
  refine ⟨rfl, ?_, ?_⟩
  · show ServerNodePrefix.data <+: (ServerNodePrefix ++ uuid₁).data
    rw [String.data_append]
    exact List.prefix_append _ _
  · intro h
    exact hfresh (append_right_cancel_string ServerNodePrefix uuid₁ uuid₂ h)

/-- An instance of C7 on the aggregate built from `exampleParams`. -/
theorem New_clientID_prefixed_unique_witness :
    "6f1c" ≠ "90ab" ∧
    (New "node:" "6f1c" exampleParams).ClientID = "node:" ++ "6f1c" ∧
    "node:".data <+: (New "node:" "6f1c" exampleParams).ClientID.data ∧
    (New "node:" "6f1c" exampleParams).ClientID
      ≠ (New "node:" "90ab" { exampleParams with MediaConn := { id := 7 } }).ClientID :=
  ⟨by decide,
   New_clientID_prefixed_unique "node:" "6f1c" "90ab" exampleParams
     { exampleParams with MediaConn := { id := 7 } } (by decide)⟩

/-- C9: for every `Params`, `New` builds the same aggregate as it builds from the parameters with
the defaults filled in explicitly (no-op interceptor for an absent interceptor, default registry
for an absent registry); the media channel and the metadata channel receive the supplied
interceptor, or the no-op interceptor when none is supplied; the metadata channel receives the
supplied registry, or the default registry when none is supplied. `New` is a total function. -/
theorem New_default_collaborators (ServerNodePrefix uuidNew : String) (params : Params) :
    New ServerNodePrefix uuidNew params = New ServerNodePrefix uuidNew params.withDefaults ∧
    (New ServerNodePrefix uuidNew params).MediaStream.params.Interceptor
      = some (params.Interceptor.getD interceptor.Interceptor.NoOp) ∧
    (New ServerNodePrefix uuidNew params).MetadataTransport.params.Interceptor
      = some (params.Interceptor.getD interceptor.Interceptor.NoOp) ∧
    (New ServerNodePrefix uuidNew params).MetadataTransport.params.MediaStream.params.Interceptor
      = some (params.Interceptor.getD interceptor.Interceptor.NoOp) ∧
    (New ServerNodePrefix uuidNew params).MetadataTransport.params.CodecRegistry
      = some (params.CodecRegistry.getD codecs.NewRegistryDefault) ∧
    (∀ i, params.Interceptor = some i →
      (New ServerNodePrefix uuidNew params).MediaStream.params.Interceptor = some i ∧
      (New ServerNodePrefix uuidNew params).MetadataTransport.params.Interceptor = some i) ∧
    (∀ r, params.CodecRegistry = some r →
      (New ServerNodePrefix uuidNew params).MetadataTransport.params.CodecRegistry = some r) := by
  obtain ⟨log, mc, dc, mdc, i, r⟩ := params
  cases i <;> cases r <;> simp [New, Params.withDefaults, NewMediaStream, NewMetadataTransport]

end servertransport

/-! ## Track identity -/

namespace pubsub

/-- C6: for every publishing client identifier and every track handle, `newPubTrack` is the
record of the client identifier, the user identifier the track reports and the unique
identifier the track reports; client "C1" with a track reporting unique id "T1" and owner "U1"
gives the record of "C1", "U1" and "T1". -/
theorem newPubTrack_derivation (pubClientID : identifiers.ClientID) (track : transport.Track) :
    newPubTrack pubClientID track
      = { ClientID := pubClientID, UserID := track.UserID, TrackID := track.UniqueID } ∧
    newPubTrack "C1" { UniqueID := "T1", UserID := "U1" }
      = { ClientID := "C1", UserID := "U1", TrackID := "T1" } :=
  ⟨rfl, rfl⟩

end pubsub

/-! ## Stream identifiers -/

namespace streams

/-- C10: for every room on a connection set, the media stream identifier N of the room is odd
and at least 1, the data-channel stream identifier of the room is N + 1, even and at least 2,
the metadata stream identifier is 0, and the role of each of these streams is the one read off
its identifier (0: metadata, odd: media, other even: data). -/
theorem stream_ids_deterministic (room : Nat) :
    (roomStreams room).media % 2 = 1 ∧
    1 ≤ (roomStreams room).media ∧
    (roomStreams room).data = (roomStreams room).media + 1 ∧
    (roomStreams room).data % 2 = 0 ∧
    2 ≤ (roomStreams room).data ∧
    metadataStreamID = 0 ∧
    roleOf metadataStreamID = Role.metadata ∧
    roleOf (roomStreams room).media = Role.media ∧
    roleOf (roomStreams room).data = Role.data := by
  have hm : (roomStreams room).media = 2 * room + 1 := rfl
  have hd : (roomStreams room).data = 2 * room + 2 := rfl
  rw [hm, hd]
  refine ⟨by omega, by omega, rfl, by omega, by omega, rfl, rfl, ?_, ?_⟩
  · unfold roleOf
    rw [if_neg (by omega), if_pos (by omega)]
  · unfold roleOf
    rw [if_neg (by omega), if_neg (by omega)]

end streams

end PeerCalls
